import Mathlib

/-!
Verification of scripts/suggest_docs.py: a shallow embedding of the
documentation-update pipeline and proofs about its behavior.

External effects (the generative-model client, the filesystem, git) are
modelled as explicit oracle functions passed to the embedded pipeline; an
oracle returning Except.error models the underlying call raising an
exception, which the Python code would propagate unless caught.
-/

deriving instance DecidableEq for Except

namespace SuggestDocs

/-! ### Python string primitives used by the script -/

/-- Characters stripped by Python str.strip with no arguments. -/
def isPySpace (c : Char) : Bool :=
  c == ' ' || c == '\t' || c == '\n' || c == '\r' || c == '\x0b' || c == '\x0c'

/-- Python str.strip: remove leading and trailing whitespace. -/
def pyStrip (s : String) : String :=
  ⟨((s.data.dropWhile isPySpace).reverse.dropWhile isPySpace).reverse⟩

/-- Python str.upper, restricted to ASCII case mapping (the script only
compares the result against the ASCII literal NONE). -/
def pyUpper (s : String) : String :=
  ⟨s.data.map Char.toUpper⟩

/-- Bool test that the first list is an initial segment of the second. -/
def listLeads : List Char → List Char → Bool
  | [], _ => true
  | _ :: _, [] => false
  | a :: as, b :: bs => a == b && listLeads as bs

/-- Python str.startswith. -/
def pyStartswith (s pre : String) : Bool :=
  listLeads pre.data s.data

/-- Python str.endswith. -/
def pyEndswith (s suf : String) : Bool :=
  listLeads suf.data.reverse s.data.reverse

/-- Bool test that the needle occurs contiguously somewhere in the haystack. -/
def occursIn (needle : List Char) : List Char → Bool
  | [] => listLeads needle []
  | c :: cs => listLeads needle (c :: cs) || occursIn needle cs

/-- Substring occurrence at the String level (Python: needle in hay). -/
def strOccurs (needle hay : String) : Bool :=
  occursIn needle.data hay.data

/-- Characters treated as line boundaries by Python str.splitlines. -/
def isLineBoundary (c : Char) : Bool :=
  c == '\n' || c == '\r' || c == '\x0b' || c == '\x0c' ||
  c == '\x1c' || c == '\x1d' || c == '\x1e' || c == '\u0085' ||
  c == '\u2028' || c == '\u2029'

/-- Worker for splitlines: acc holds the current line reversed; the flag
records that the previous character was a carriage return, so that a
following line feed is part of the same CRLF boundary. -/
def pySplitlinesAux : List Char → List Char → Bool → List (List Char)
  | [], acc, _ => if acc.isEmpty then [] else [acc.reverse]
  | c :: cs, acc, prevCR =>
    if prevCR && c == '\n' then pySplitlinesAux cs acc false
    else if c == '\r' then acc.reverse :: pySplitlinesAux cs [] true
    else if isLineBoundary c then acc.reverse :: pySplitlinesAux cs [] false
    else pySplitlinesAux cs (c :: acc) false

/-- Python str.splitlines. -/
def pySplitlines (s : String) : List String :=
  (pySplitlinesAux s.data [] false).map (fun l => ⟨l⟩)

/-- Worker for split on a single newline character. -/
def splitNlAux : List Char → List Char → List (List Char)
  | [], acc => [acc.reverse]
  | c :: cs, acc =>
    if c == '\n' then acc.reverse :: splitNlAux cs []
    else splitNlAux cs (c :: acc)

/-- Python s.split with separator a single newline, as used by the
line-count computation len(content.split(chr(10))). -/
def pySplitNl (s : String) : List String :=
  (splitNlAux s.data []).map (fun l => ⟨l⟩)

/-! ### File inventory (get_file_content_or_summaries, suggest_docs.py 183-214)

The filesystem is modelled as an explicit list of enumerated documentation
files paired with the outcome of reading them: Except.ok content for a
readable file, Except.error for a read that raises.  The summarization
call (summarize_long_file, lines 153-181) is an oracle from path and
content to the response text; the script strips the response. -/

/-- Embeds get_file_content_or_summaries: skip unreadable files; for a
readable file count the lines of content.split over a newline and keep the
verbatim content when the count is at most line_threshold, otherwise the
stripped summarization response. -/
def get_file_content_or_summaries (summarize : String → String → String)
    (line_threshold : Nat) :
    List (String × Except Unit String) → List (String × String)
  | [] => []
  | (_, Except.error _) :: rest =>
    get_file_content_or_summaries summarize line_threshold rest
  | (path, Except.ok content) :: rest =>
    let line_count := (pySplitNl content).length
    let content_to_use :=
      if line_count > line_threshold then pyStrip (summarize path content)
      else content
    (path, content_to_use) :: get_file_content_or_summaries summarize line_threshold rest

/-! ### Relevance selection (ask_gemini_for_relevant_files, lines 216-277) -/

/-- A path is a documentation file when it ends in .adoc or .md
(line 267 of the script). -/
def isDocFile (f : String) : Bool :=
  pyEndswith f ".adoc" || pyEndswith f ".md"

/-- Embeds lines 260-266: strip the response text; a response whose
stripped text uppercases to NONE yields no suggestions; otherwise each
line of the stripped text is stripped in turn and kept when non-empty. -/
def parseSuggested (raw : String) : List String :=
  let result_text := pyStrip raw
  if pyUpper result_text = "NONE" then []
  else (pySplitlines result_text).filterMap
    (fun line => if pyStrip line = "" then none else some (pyStrip line))

/-- Embeds lines 260-273 for one batch: parse the suggestions and keep
only documentation files. -/
def processBatch (raw : String) : List String :=
  (parseSuggested raw).filter isDocFile

/-- Worker for batching: acc holds the current batch reversed. -/
def chunkGo (n : Nat) : List α → List α → List (List α)
  | [], acc => if acc.isEmpty then [] else [acc.reverse]
  | x :: xs, acc =>
    if acc.length + 1 = n then (x :: acc).reverse :: chunkGo n xs []
    else chunkGo n xs (x :: acc)

/-- Consecutive batches of size n (last batch possibly smaller), as
produced by the range-with-step slicing loop on line 221. -/
def chunked (n : Nat) (l : List α) : List (List α) :=
  chunkGo n l []

/-- Embeds the batch loop of lines 221-274: each batch is sent to the
external service (the sel oracle); an oracle error models the call
raising, which the script does not catch, so the error propagates and
aborts the loop; a successful response contributes its filtered
suggestions in order. -/
def runBatches (sel : List (String × String) → Except Unit String) :
    List (List (String × String)) → Except Unit (List String)
  | [] => Except.ok []
  | b :: bs =>
    match sel b with
    | Except.error e => Except.error e
    | Except.ok raw =>
      match runBatches sel bs with
      | Except.error e => Except.error e
      | Except.ok rest => Except.ok (processBatch raw ++ rest)

/-- Embeds ask_gemini_for_relevant_files (lines 216-277): batches of 10. -/
def ask_gemini_for_relevant_files
    (sel : List (String × String) → Except Unit String)
    (file_previews : List (String × String)) : Except Unit (List String) :=
  runBatches sel (chunked 10 file_previews)

/-! ### Content revision and main loop (lines 279-529) -/

/-- Embeds load_full_content (lines 279-284): a read that raises is
caught and turned into the empty string. -/
def load_full_content (load : String → Except Unit String)
    (file_path : String) : String :=
  match load file_path with
  | Except.ok s => s
  | Except.error _ => ""

/-- Commit metadata assembled by get_commit_info (lines 62-109); the
change-request fields are present together or absent together, with the
URL derived from the repository URL and number, so only the number is
stored. -/
structure CommitInfo where
  repo_url : String
  current_commit : String
  short_hash : String
  pr_number : Option String
deriving Repr, DecidableEq

/-- Embeds the commit-message construction of push_and_open_pr
(lines 388-401). -/
def build_commit_msg (commit_info : Option CommitInfo) : String :=
  let commit_msg := "Auto-generated doc updates from code changes"
  let commit_msg :=
    match commit_info with
    | none => commit_msg
    | some ci =>
      match ci.pr_number with
      | some n =>
        commit_msg ++ "\n\nPR Link: " ++ (ci.repo_url ++ "/pull/" ++ n)
          ++ "\nLatest commit: " ++ ci.short_hash
      | none =>
        commit_msg ++ "\n\nCommit Link: "
          ++ (ci.repo_url ++ "/commit/" ++ ci.current_commit)
          ++ "\nLatest commit: " ++ ci.short_hash
  commit_msg ++ "\n\nAssisted-by: Gemini"

/-- Embeds line 523: in same-repository mode each modified path is
prefixed with the docs subfolder unless it already starts with it. -/
def rewriteDocsPaths (docs_subfolder : String) (modified_files : List String) :
    List String :=
  modified_files.map
    (fun f => if pyStartswith f docs_subfolder then f else docs_subfolder ++ "/" ++ f)

/-- Observable outcome of the per-candidate loop of main
(lines 466-484). -/
structure LoopResult where
  modified : List String
  writes : List (String × String)
  revised : List String
  wouldUpdate : List String
deriving Repr, DecidableEq

/-- Embeds the per-candidate loop (lines 466-484): skip a candidate whose
loaded content is empty (unreadable or zero-byte); otherwise issue the
revision request (the rev oracle; ask_gemini_for_updated_content returns
the stripped response text, line 375); skip when the re-stripped response
is the NO_UPDATE_NEEDED sentinel; in dry-run report the candidate as a
would-be update; otherwise write the file and, when the write succeeds,
record it as modified. -/
def reviseLoop (dry : Bool) (load : String → Except Unit String)
    (rev : String → String → String) (w : String → Bool) :
    List String → LoopResult
  | [] => ⟨[], [], [], []⟩
  | file_path :: rest =>
    let r := reviseLoop dry load rev w rest
    let current := load_full_content load file_path
    if current = "" then r
    else
      let updated := pyStrip (rev file_path current)
      if pyStrip updated = "NO_UPDATE_NEEDED" then
        { r with revised := file_path :: r.revised }
      else if dry then
        { r with revised := file_path :: r.revised,
                 wouldUpdate := file_path :: r.wouldUpdate }
      else if w file_path then
        { modified := file_path :: r.modified,
          writes := (file_path, updated) :: r.writes,
          revised := file_path :: r.revised,
          wouldUpdate := r.wouldUpdate }
      else
        { r with revised := file_path :: r.revised }

/-- Observable outcome of one run of main (lines 432-529): the files
written, the per-file dry-run reports, the revision requests issued, the
modified-files list, the publish action (staged paths and commit info
handed to push_and_open_pr, or none), and whether an uncaught exception
escaped. -/
structure MainResult where
  writes : List (String × String)
  wouldUpdate : List String
  revised : List String
  modified : List String
  published : Option (List String × Option CommitInfo)
  aborted : Bool
deriving Repr, DecidableEq

/-- The result of a run that exits early with no effect. -/
def emptyResult : MainResult :=
  ⟨[], [], [], [], none, false⟩

/-- The tail of main after a successful, non-empty selection
(lines 466-529): run the per-candidate loop; a non-empty modified list is
published (staged paths plus commit info handed to push_and_open_pr)
unless dry-run; in same-repository mode the staged paths are rewritten
with the subfolder before staging. -/
def mainRecord (dry : Bool) (commit_info : Option CommitInfo)
    (docs_subfolder : Option String) (load : String → Except Unit String)
    (rev : String → String → String) (w : String → Bool)
    (relevant_files : List String) : MainResult :=
  let r := reviseLoop dry load rev w relevant_files
  { writes := r.writes
    wouldUpdate := r.wouldUpdate
    revised := r.revised
    modified := r.modified
    published :=
      if r.modified = [] then none
      else if dry then none
      else
        match docs_subfolder with
        | some sub => some (rewriteDocsPaths sub r.modified, commit_info)
        | none => some (r.modified, commit_info)
    aborted := false }

/-- Embeds main (lines 432-529).  Early returns: empty diff (line 438),
failed docs-environment setup (line 447), no documentation files
(line 454), no selected files (line 460).  A selection-stage oracle error
models the uncaught exception aborting the run.  After the loop, a
non-empty modified list is published unless dry-run; in same-repository
mode the staged paths are rewritten with the subfolder. -/
def runMain (dry : Bool) (diff : String) (commit_info : Option CommitInfo)
    (setup_ok : Bool) (docs_subfolder : Option String)
    (previews : List (String × String))
    (sel : List (String × String) → Except Unit String)
    (load : String → Except Unit String)
    (rev : String → String → String) (w : String → Bool) : MainResult :=
  if diff = "" then emptyResult
  else if setup_ok = false then emptyResult
  else if previews = [] then emptyResult
  else
    match ask_gemini_for_relevant_files sel previews with
    | Except.error _ => { emptyResult with aborted := true }
    | Except.ok relevant_files =>
      if relevant_files = [] then emptyResult
      else mainRecord dry commit_info docs_subfolder load rev w relevant_files

/-! ### Concrete instances used to exercise the embedding -/

/-- An eleven-file inventory: the batch loop splits it into a batch of ten
and a batch of one. -/
def c1Previews : List (String × String) :=
  [("f01.md", "p"), ("f02.md", "p"), ("f03.md", "p"), ("f04.md", "p"),
   ("f05.md", "p"), ("f06.md", "p"), ("f07.md", "p"), ("f08.md", "p"),
   ("f09.md", "p"), ("f10.md", "p"), ("f11.md", "p")]

/-- A selection oracle whose call raises on the first batch (the batch of
ten) and answers the second batch (the batch of one) with one path. -/
def c1Sel (b : List (String × String)) : Except Unit String :=
  if b.length = 10 then Except.error () else Except.ok "f11.md"

/-! ### Helper lemmas -/

/-- A list is an initial segment of itself followed by anything. -/
theorem listLeads_self_append (n b : List Char) : listLeads n (n ++ b) = true := by
  induction n with
  | nil => rfl
  | cons c cs ih => simp [listLeads, ih]

/-- A needle occurs in any haystack of the shape a ++ (needle ++ b). -/
theorem occursIn_append (a n b : List Char) : occursIn n (a ++ (n ++ b)) = true := by
  induction a with
  | nil =>
    simp only [List.nil_append]
    cases h : n ++ b with
    | nil =>
      have hn : n = [] := (List.append_eq_nil.mp h).1
      subst hn
      rfl
    | cons c cs =>
      simp only [occursIn, Bool.or_eq_true]
      left
      rw [← h]
      exact listLeads_self_append n b
  | cons x xs ih =>
    simp [occursIn, ih]

/-- String-level form: the left operand of an append is a prefix. -/
theorem pyStartswith_append (a b : String) : pyStartswith (a ++ b) a = true := by
  unfold pyStartswith
  rw [String.data_append]
  exact listLeads_self_append _ _

/-- String-level form: the right operand of an append is a suffix. -/
theorem pyEndswith_append (a b : String) : pyEndswith (a ++ b) b = true := by
  unfold pyEndswith
  rw [String.data_append, List.reverse_append]
  exact listLeads_self_append _ _

/-- String-level occurrence in a three-part concatenation. -/
theorem strOccurs_mid (a n b : String) : strOccurs n (a ++ (n ++ b)) = true := by
  unfold strOccurs
  rw [String.data_append, String.data_append]
  exact occursIn_append _ _ _

/-- Every run of main is an early exit, an aborted selection stage, or a
full run over a successfully selected non-empty candidate list. -/
theorem runMain_shape (dry : Bool) (diff : String) (ci : Option CommitInfo)
    (setup : Bool) (sub : Option String) (previews : List (String × String))
    (sel : List (String × String) → Except Unit String)
    (load : String → Except Unit String)
    (rev : String → String → String) (w : String → Bool) :
    runMain dry diff ci setup sub previews sel load rev w = emptyResult ∨
    runMain dry diff ci setup sub previews sel load rev w =
      { emptyResult with aborted := true } ∨
    ∃ rel, ask_gemini_for_relevant_files sel previews = Except.ok rel ∧ rel ≠ [] ∧
      runMain dry diff ci setup sub previews sel load rev w =
        mainRecord dry ci sub load rev w rel := by
  by_cases h1 : diff = ""
  · exact Or.inl (by unfold runMain; rw [if_pos h1])
  by_cases h2 : setup = false
  · exact Or.inl (by unfold runMain; rw [if_neg h1, if_pos h2])
  by_cases h3 : previews = []
  · exact Or.inl (by unfold runMain; rw [if_neg h1, if_neg h2, if_pos h3])
  cases hsel : ask_gemini_for_relevant_files sel previews with
  | error e =>
    refine Or.inr (Or.inl ?_)
    unfold runMain
    rw [if_neg h1, if_neg h2, if_neg h3]
    simp only [hsel]
  | ok rel =>
    by_cases hrel : rel = []
    · refine Or.inl ?_
      unfold runMain
      rw [if_neg h1, if_neg h2, if_neg h3]
      simp only [hsel]
      rw [if_pos hrel]
    · refine Or.inr (Or.inr ⟨rel, rfl, hrel, ?_⟩)
      unfold runMain
      rw [if_neg h1, if_neg h2, if_neg h3]
      simp only [hsel]
      rw [if_neg hrel]

/-- In dry-run mode the per-candidate loop writes nothing and records no
modified file. -/
theorem reviseLoop_dry_inert (load : String → Except Unit String)
    (rev : String → String → String) (w : String → Bool) (l : List String) :
    (reviseLoop true load rev w l).writes = [] ∧
    (reviseLoop true load rev w l).modified = [] := by
  induction l with
  | nil => exact ⟨rfl, rfl⟩
  | cons q rest ih =>
    simp only [reviseLoop]
    split_ifs with h1 h2
    · exact ih
    · exact ih
    · exact ih

/-- In dry-run mode every candidate with non-empty loaded content and a
non-sentinel revision response is reported as a would-be update. -/
theorem reviseLoop_dry_report (load : String → Except Unit String)
    (rev : String → String → String) (w : String → Bool) (p : String)
    (hload : load_full_content load p ≠ "")
    (hsent : pyStrip (pyStrip (rev p (load_full_content load p))) ≠ "NO_UPDATE_NEEDED") :
    ∀ l, p ∈ l → p ∈ (reviseLoop true load rev w l).wouldUpdate := by
  intro l
  induction l with
  | nil => intro hp; cases hp
  | cons q rest ih =>
    intro hp
    rcases List.mem_cons.mp hp with heq | htail
    · subst heq
      simp only [reviseLoop]
      rw [if_neg hload, if_neg hsent]
      simp
    · simp only [reviseLoop]
      split_ifs with h1 h2
      · exact ih htail
      · exact ih htail
      · exact List.mem_cons_of_mem _ (ih htail)

/-- A candidate whose (stripped) revision response is the no-update
sentinel is never written and never recorded as modified. -/
theorem reviseLoop_sentinel_skip (dry : Bool) (load : String → Except Unit String)
    (rev : String → String → String) (w : String → Bool) (p : String)
    (h : pyStrip (rev p (load_full_content load p)) = "NO_UPDATE_NEEDED") :
    ∀ l, (∀ e ∈ (reviseLoop dry load rev w l).writes, e.1 ≠ p) ∧
      p ∉ (reviseLoop dry load rev w l).modified := by
  have hsent2 : pyStrip (pyStrip (rev p (load_full_content load p))) = "NO_UPDATE_NEEDED" := by
    rw [h]; decide
  intro l
  induction l with
  | nil => exact ⟨fun e he => absurd he (List.not_mem_nil e), fun hm => absurd hm (List.not_mem_nil p)⟩
  | cons q rest ih =>
    by_cases hq : q = p
    · subst hq
      simp only [reviseLoop]
      split_ifs with h1
      · exact ih
      · exact ih
    · simp only [reviseLoop]
      split_ifs with h1 h2 h3 h4
      · exact ih
      · exact ih
      · exact ih
      · constructor
        · intro e he
          rcases List.mem_cons.mp he with rfl | hmem
          · exact hq
          · exact ih.1 e hmem
        · intro hm
          rcases List.mem_cons.mp hm with rfl | hmem
          · exact hq rfl
          · exact ih.2 hmem
      · exact ih

/-- A candidate whose loaded content is empty is skipped by the loop: no
revision request, no write, no modified-file entry. -/
theorem reviseLoop_empty_skip (dry : Bool) (load : String → Except Unit String)
    (rev : String → String → String) (w : String → Bool) (p : String)
    (h : load_full_content load p = "") :
    ∀ l, p ∉ (reviseLoop dry load rev w l).revised ∧
      (∀ e ∈ (reviseLoop dry load rev w l).writes, e.1 ≠ p) ∧
      p ∉ (reviseLoop dry load rev w l).modified := by
  intro l
  induction l with
  | nil =>
    exact ⟨fun hm => absurd hm (List.not_mem_nil p),
      fun e he => absurd he (List.not_mem_nil e),
      fun hm => absurd hm (List.not_mem_nil p)⟩
  | cons q rest ih =>
    by_cases hq : q = p
    · subst hq
      simp only [reviseLoop]
      rw [if_pos h]
      exact ih
    · simp only [reviseLoop]
      split_ifs with h1 h2 h3 h4
      · exact ih
      · refine ⟨?_, ih.2⟩
        intro hm
        rcases List.mem_cons.mp hm with rfl | hmem
        · exact hq rfl
        · exact ih.1 hmem
      · refine ⟨?_, ih.2⟩
        intro hm
        rcases List.mem_cons.mp hm with rfl | hmem
        · exact hq rfl
        · exact ih.1 hmem
      · refine ⟨?_, ?_, ?_⟩
        · intro hm
          rcases List.mem_cons.mp hm with rfl | hmem
          · exact hq rfl
          · exact ih.1 hmem
        · intro e he
          rcases List.mem_cons.mp he with rfl | hmem
          · exact hq
          · exact ih.2.1 e hmem
        · intro hm
          rcases List.mem_cons.mp hm with rfl | hmem
          · exact hq rfl
          · exact ih.2.2 hmem
      · refine ⟨?_, ih.2⟩
        intro hm
        rcases List.mem_cons.mp hm with rfl | hmem
        · exact hq rfl
        · exact ih.1 hmem

/-- Every path for which a revision request is issued is one of the
candidates handed to the loop. -/
theorem reviseLoop_revised_sub (dry : Bool) (load : String → Except Unit String)
    (rev : String → String → String) (w : String → Bool) :
    ∀ l p, p ∈ (reviseLoop dry load rev w l).revised → p ∈ l := by
  intro l
  induction l with
  | nil => intro p hp; cases hp
  | cons q rest ih =>
    intro p hp
    simp only [reviseLoop] at hp
    split_ifs at hp with h1 h2 h3 h4
    · exact List.mem_cons_of_mem _ (ih p hp)
    all_goals
      rcases List.mem_cons.mp hp with rfl | hmem
      · exact List.mem_cons_self _ _
      · exact List.mem_cons_of_mem _ (ih p hmem)

/-- Every path accumulated by the batch loop is a documentation file and
was proposed in some successfully answered batch. -/
theorem runBatches_mem (sel : List (String × String) → Except Unit String) :
    ∀ bs res, runBatches sel bs = Except.ok res → ∀ p ∈ res,
      isDocFile p = true ∧
      ∃ b ∈ bs, ∃ raw, sel b = Except.ok raw ∧ p ∈ parseSuggested raw := by
  intro bs
  induction bs with
  | nil =>
    intro res h p hp
    simp only [runBatches] at h
    injection h with h2
    subst h2
    cases hp
  | cons b bs ih =>
    intro res h p hp
    simp only [runBatches] at h
    cases hsel : sel b with
    | error e => rw [hsel] at h; simp at h
    | ok raw =>
      rw [hsel] at h
      cases hrec : runBatches sel bs with
      | error e => rw [hrec] at h; simp at h
      | ok rest =>
        rw [hrec] at h
        injection h with h2
        subst h2
        rcases List.mem_append.mp hp with hl | hr
        · simp only [processBatch] at hl
          have hf := List.mem_filter.mp hl
          exact ⟨hf.2, b, List.mem_cons_self _ _, raw, hsel, hf.1⟩
        · obtain ⟨hd, b2, hb2, raw2, hsel2, hp2⟩ := ih rest hrec p hr
          exact ⟨hd, b2, List.mem_cons_of_mem _ hb2, raw2, hsel2, hp2⟩

/-- main reduced on the path through a successful non-empty selection. -/
theorem runMain_eq (dry : Bool) (diff : String) (ci : Option CommitInfo)
    (setup : Bool) (sub : Option String) (previews : List (String × String))
    (sel : List (String × String) → Except Unit String)
    (load : String → Except Unit String)
    (rev : String → String → String) (w : String → Bool) (rel : List String)
    (h1 : diff ≠ "") (h2 : setup = true) (h3 : previews ≠ [])
    (hsel : ask_gemini_for_relevant_files sel previews = Except.ok rel)
    (h4 : rel ≠ []) :
    runMain dry diff ci setup sub previews sel load rev w =
      mainRecord dry ci sub load rev w rel := by
  subst h2
  unfold runMain
  rw [if_neg h1, if_neg (by decide : ¬(true = false)), if_neg h3]
  simp only [hsel]
  rw [if_neg h4]

/-- The comprehension keeping the non-empty stripped lines equals mapping
the strip and filtering out empties. -/
theorem filterMap_strip_eq (l : List String) :
    l.filterMap (fun line => if pyStrip line = "" then none else some (pyStrip line)) =
    (l.map pyStrip).filter (fun s => s != "") := by
  induction l with
  | nil => rfl
  | cons a t ih =>
    by_cases h : pyStrip a = "" <;>
      simp [List.filterMap_cons, List.filter_cons, h, ih]

/-! ### Claims -/

/-- Claim C1 (refuted, code bug): the claim states that a batch whose
external call fails does not abort the relevance-selection run and that
processing continues with the remaining batches.  On the embedded code an
oracle error on the first batch of ten makes the whole run return that
error, so nothing is selected at all; the second conjunct shows the
remaining batch of one, run on its own, would have contributed f11.md. -/
theorem claim_C1_batch_failure_aborts_run :
    ask_gemini_for_relevant_files c1Sel c1Previews = Except.error () ∧
    ask_gemini_for_relevant_files c1Sel (c1Previews.drop 10) = Except.ok ["f11.md"] :=
  ⟨by decide, by decide⟩

/-- Claim C2: a readable documentation file whose newline-delimited line
count is at most the threshold keeps its verbatim content as preview; one
whose count exceeds the threshold gets the (stripped) summarization-call
response as preview. -/
theorem claim_C2_preview_threshold (summarize : String → String → String)
    (t : Nat) (files : List (String × Except Unit String)) (p c : String)
    (hmem : (p, Except.ok c) ∈ files) :
    ((pySplitNl c).length ≤ t →
      (p, c) ∈ get_file_content_or_summaries summarize t files) ∧
    (t < (pySplitNl c).length →
      (p, pyStrip (summarize p c)) ∈ get_file_content_or_summaries summarize t files) := by
  induction files with
  | nil => cases hmem
  | cons hd rest ih =>
    obtain ⟨q, d⟩ := hd
    rcases List.mem_cons.mp hmem with heq | htail
    · obtain ⟨hq, hd⟩ : q = p ∧ d = Except.ok c := by
        constructor <;> injection heq <;> simp_all
      subst hq
      subst hd
      constructor
      · intro hle
        have hcond : ¬((pySplitNl c).length > t) := by omega
        simp only [get_file_content_or_summaries, if_neg hcond]
        exact List.mem_cons_self _ _
      · intro hlt
        have hcond : (pySplitNl c).length > t := hlt
        simp only [get_file_content_or_summaries, if_pos hcond]
        exact List.mem_cons_self _ _
    · have hr := ih htail
      constructor <;> intro h'
      · cases d with
        | error e =>
          simpa only [get_file_content_or_summaries] using hr.1 h'
        | ok content =>
          simp only [get_file_content_or_summaries]
          exact List.mem_cons_of_mem _ (hr.1 h')
      · cases d with
        | error e =>
          simpa only [get_file_content_or_summaries] using hr.2 h'
        | ok content =>
          simp only [get_file_content_or_summaries]
          exact List.mem_cons_of_mem _ (hr.2 h')

/-- Witness for claim C2 at a concrete inventory: with threshold 1 the
one-line file keeps its content and the two-line file gets the stripped
summary. -/
theorem claim_C2_witness :
    ("a.md", "hello") ∈
      get_file_content_or_summaries (fun _ _ => " S ") 1
        [("a.md", Except.ok "hello"), ("b.md", Except.error ()),
         ("c.md", Except.ok "l1\nl2")] ∧
    ("c.md", "S") ∈
      get_file_content_or_summaries (fun _ _ => " S ") 1
        [("a.md", Except.ok "hello"), ("b.md", Except.error ()),
         ("c.md", Except.ok "l1\nl2")] :=
  ⟨(claim_C2_preview_threshold (fun _ _ => " S ") 1 _ "a.md" "hello"
      (by decide)).1 (by decide),
   (claim_C2_preview_threshold (fun _ _ => " S ") 1 _ "c.md" "l1\nl2"
      (by decide)).2 (by decide)⟩

/-- Claim C7: an empty diff makes the pipeline return early and
successfully, with no file written and no publish action. -/
theorem claim_C7_empty_diff (dry : Bool) (ci : Option CommitInfo)
    (setup : Bool) (sub : Option String) (previews : List (String × String))
    (sel : List (String × String) → Except Unit String)
    (load : String → Except Unit String)
    (rev : String → String → String) (w : String → Bool) :
    (runMain dry "" ci setup sub previews sel load rev w).writes = [] ∧
    (runMain dry "" ci setup sub previews sel load rev w).published = none ∧
    (runMain dry "" ci setup sub previews sel load rev w).aborted = false :=
  ⟨rfl, rfl, rfl⟩

/-- Claim C8: the commit message always starts with the fixed summary
line and ends with the fixed attribution trailer; with a change-request
number it contains the pull-request link and the short hash, without one
it contains the commit link and the short hash. -/
theorem claim_C8_commit_message (ci : CommitInfo) :
    pyStartswith (build_commit_msg (some ci))
      "Auto-generated doc updates from code changes" = true ∧
    pyEndswith (build_commit_msg (some ci)) "\n\nAssisted-by: Gemini" = true ∧
    (∀ n, ci.pr_number = some n →
      strOccurs (ci.repo_url ++ "/pull/" ++ n) (build_commit_msg (some ci)) = true ∧
      strOccurs ci.short_hash (build_commit_msg (some ci)) = true) ∧
    (ci.pr_number = none →
      strOccurs (ci.repo_url ++ "/commit/" ++ ci.current_commit)
        (build_commit_msg (some ci)) = true ∧
      strOccurs ci.short_hash (build_commit_msg (some ci)) = true) := by
  refine ⟨?_, ?_, ?_, ?_⟩
  · cases hpr : ci.pr_number with
    | none =>
      have e : build_commit_msg (some ci) =
          ("Auto-generated doc updates from code changes" : String) ++
            ("\n\nCommit Link: " ++ ((ci.repo_url ++ ("/commit/" ++ ci.current_commit))
              ++ ("\nLatest commit: " ++ (ci.short_hash ++ "\n\nAssisted-by: Gemini")))) := by
        simp only [build_commit_msg, hpr]
        repeat rw [String.append_assoc]
      rw [e]
      exact pyStartswith_append _ _
    | some n =>
      have e : build_commit_msg (some ci) =
          ("Auto-generated doc updates from code changes" : String) ++
            ("\n\nPR Link: " ++ ((ci.repo_url ++ ("/pull/" ++ n))
              ++ ("\nLatest commit: " ++ (ci.short_hash ++ "\n\nAssisted-by: Gemini")))) := by
        simp only [build_commit_msg, hpr]
        repeat rw [String.append_assoc]
      rw [e]
      exact pyStartswith_append _ _
  · cases hpr : ci.pr_number with
    | none =>
      have e : build_commit_msg (some ci) =
          ("Auto-generated doc updates from code changes" ++ ("\n\nCommit Link: "
            ++ ((ci.repo_url ++ ("/commit/" ++ ci.current_commit))
              ++ ("\nLatest commit: " ++ ci.short_hash))))
            ++ "\n\nAssisted-by: Gemini" := by
        simp only [build_commit_msg, hpr]
        repeat rw [String.append_assoc]
      rw [e]
      exact pyEndswith_append _ _
    | some n =>
      have e : build_commit_msg (some ci) =
          ("Auto-generated doc updates from code changes" ++ ("\n\nPR Link: "
            ++ ((ci.repo_url ++ ("/pull/" ++ n))
              ++ ("\nLatest commit: " ++ ci.short_hash))))
            ++ "\n\nAssisted-by: Gemini" := by
        simp only [build_commit_msg, hpr]
        repeat rw [String.append_assoc]
      rw [e]
      exact pyEndswith_append _ _
  · intro n hpr
    constructor
    · have e : build_commit_msg (some ci) =
          ("Auto-generated doc updates from code changes" ++ "\n\nPR Link: ") ++
            ((ci.repo_url ++ "/pull/" ++ n) ++
              ("\nLatest commit: " ++ (ci.short_hash ++ "\n\nAssisted-by: Gemini"))) := by
        simp only [build_commit_msg, hpr]
        repeat rw [String.append_assoc]
      rw [e]
      exact strOccurs_mid _ _ _
    · have e : build_commit_msg (some ci) =
          ("Auto-generated doc updates from code changes" ++ ("\n\nPR Link: "
            ++ ((ci.repo_url ++ ("/pull/" ++ n)) ++ "\nLatest commit: "))) ++
            (ci.short_hash ++ "\n\nAssisted-by: Gemini") := by
        simp only [build_commit_msg, hpr]
        repeat rw [String.append_assoc]
      rw [e]
      exact strOccurs_mid _ _ _
  · intro hpr
    constructor
    · have e : build_commit_msg (some ci) =
          ("Auto-generated doc updates from code changes" ++ "\n\nCommit Link: ") ++
            ((ci.repo_url ++ "/commit/" ++ ci.current_commit) ++
              ("\nLatest commit: " ++ (ci.short_hash ++ "\n\nAssisted-by: Gemini"))) := by
        simp only [build_commit_msg, hpr]
        repeat rw [String.append_assoc]
      rw [e]
      exact strOccurs_mid _ _ _
    · have e : build_commit_msg (some ci) =
          ("Auto-generated doc updates from code changes" ++ ("\n\nCommit Link: "
            ++ ((ci.repo_url ++ ("/commit/" ++ ci.current_commit)) ++ "\nLatest commit: "))) ++
            (ci.short_hash ++ "\n\nAssisted-by: Gemini") := by
        simp only [build_commit_msg, hpr]
        repeat rw [String.append_assoc]
      rw [e]
      exact strOccurs_mid _ _ _

/-- Witness for claim C8 at two concrete CommitInfo values, one with and
one without a change-request number. -/
theorem claim_C8_witness :
    strOccurs (("https://g/r" : String) ++ "/pull/" ++ "12")
      (build_commit_msg (some ⟨"https://g/r", "deadbeef0", "deadbee", some "12"⟩)) = true ∧
    strOccurs (("https://g/r" : String) ++ "/commit/" ++ "deadbeef0")
      (build_commit_msg (some ⟨"https://g/r", "deadbeef0", "deadbee", none⟩)) = true :=
  ⟨((claim_C8_commit_message ⟨"https://g/r", "deadbeef0", "deadbee", some "12"⟩).2.2.1
      "12" rfl).1,
   ((claim_C8_commit_message ⟨"https://g/r", "deadbeef0", "deadbee", none⟩).2.2.2
      rfl).1⟩

/-- Claim C10: a batch response whose stripped text uppercases to NONE
yields no suggestions; any other response is parsed by splitting the
stripped text into lines and keeping each non-empty stripped line. -/
theorem claim_C10_response_parsing (raw : String) :
    parseSuggested raw =
      if pyUpper (pyStrip raw) = "NONE" then []
      else ((pySplitlines (pyStrip raw)).map pyStrip).filter (fun s => s != "") := by
  by_cases h : pyUpper (pyStrip raw) = "NONE"
  · simp [parseSuggested, h]
  · simp only [parseSuggested, if_neg h]
    exact filterMap_strip_eq _

/-- Claim C3: the accumulated candidate list contains only paths with a
supported documentation extension, each proposed in some answered batch;
consequently every path for which main issues a revision request was
proposed by the relevance selector and carries a supported extension. -/
theorem claim_C3_extension_invariant
    (sel : List (String × String) → Except Unit String)
    (previews : List (String × String)) (rel : List String)
    (h : ask_gemini_for_relevant_files sel previews = Except.ok rel) :
    (∀ p ∈ rel, isDocFile p = true ∧
      ∃ b ∈ chunked 10 previews, ∃ raw, sel b = Except.ok raw ∧ p ∈ parseSuggested raw) ∧
    (∀ (dry : Bool) (diff : String) (ci : Option CommitInfo) (setup : Bool)
      (sub : Option String) (load : String → Except Unit String)
      (rev : String → String → String) (w : String → Bool) (p : String),
      p ∈ (runMain dry diff ci setup sub previews sel load rev w).revised →
      p ∈ rel ∧ isDocFile p = true) := by
  constructor
  · intro p hp
    exact runBatches_mem sel (chunked 10 previews) rel h p hp
  · intro dry diff ci setup sub load rev w p hp
    rcases runMain_shape dry diff ci setup sub previews sel load rev w with
      he | he | ⟨rel2, hsel2, hne, he⟩
    · rw [he] at hp
      cases hp
    · rw [he] at hp
      cases hp
    · rw [he] at hp
      have hrel : rel2 = rel := by
        rw [hsel2] at h
        injection h
      subst hrel
      have hmem : p ∈ rel2 := reviseLoop_revised_sub dry load rev w rel2 p hp
      exact ⟨hmem, (runBatches_mem sel (chunked 10 previews) rel2 h p hmem).1⟩

/-- Witness for claim C3 at a concrete run: the selector response mixes a
source file with a documentation file; only the documentation file
survives and it is the one revised. -/
theorem claim_C3_witness :
    isDocFile "a.md" = true ∧
    ("a.md" ∈ (["a.md"] : List String) ∧ isDocFile "a.md" = true) :=
  ⟨((claim_C3_extension_invariant (fun _ => Except.ok "a.md\nsrc/x.go")
      [("a.md", "p")] ["a.md"] (by decide)).1 "a.md" (by decide)).1,
   (claim_C3_extension_invariant (fun _ => Except.ok "a.md\nsrc/x.go")
      [("a.md", "p")] ["a.md"] (by decide)).2 false "d" none true none
      (fun _ => Except.ok "body") (fun _ _ => "new") (fun _ => true)
      "a.md" (by decide)⟩

/-- Claim C4: in same-repository publish mode the staged paths are
exactly the modified paths prefixed with the subfolder, a path already
starting with the subfolder being left unchanged. -/
theorem claim_C4_staged_paths (diff : String) (ci : Option CommitInfo)
    (setup : Bool) (previews : List (String × String))
    (sel : List (String × String) → Except Unit String)
    (load : String → Except Unit String)
    (rev : String → String → String) (w : String → Bool)
    (sub : String) (staged : List String) (ci2 : Option CommitInfo)
    (h : (runMain false diff ci setup (some sub) previews sel load rev w).published
      = some (staged, ci2)) :
    staged = (runMain false diff ci setup (some sub) previews sel load rev w).modified.map
      (fun f => if pyStartswith f sub then f else sub ++ "/" ++ f) := by
  rcases runMain_shape false diff ci setup (some sub) previews sel load rev w with
    he | he | ⟨rel, hsel, hne, he⟩
  · rw [he] at h
    cases h
  · rw [he] at h
    cases h
  · rw [he] at h ⊢
    simp only [mainRecord] at h ⊢
    by_cases hm : (reviseLoop false load rev w rel).modified = []
    · rw [if_pos hm] at h
      cases h
    · rw [if_neg hm] at h
      simp only [Bool.false_eq_true, if_false] at h
      injection h with h2
      injection h2 with h3 h4
      rw [← h3]
      rfl

/-- Witness for claim C4 at a concrete run whose one modified path gets
the docs prefix. -/
theorem claim_C4_witness :
    (["docs/a.md"] : List String) =
      (runMain false "d" none true (some "docs") [("a.md", "p")]
        (fun _ => Except.ok "a.md") (fun _ => Except.ok "body")
        (fun _ _ => "new") (fun _ => true)).modified.map
        (fun f => if pyStartswith f "docs" then f else "docs" ++ "/" ++ f) :=
  claim_C4_staged_paths "d" none true [("a.md", "p")]
    (fun _ => Except.ok "a.md") (fun _ => Except.ok "body")
    (fun _ _ => "new") (fun _ => true) "docs" ["docs/a.md"] none (by decide)

/-- Claim C5: with the dry-run flag set the pipeline writes no file and
invokes no publish action, and every candidate whose loaded content is
non-empty and whose revision response is not the no-update sentinel is
reported as a would-be update. -/
theorem claim_C5_dry_run (diff : String) (ci : Option CommitInfo)
    (setup : Bool) (sub : Option String) (previews : List (String × String))
    (sel : List (String × String) → Except Unit String)
    (load : String → Except Unit String)
    (rev : String → String → String) (w : String → Bool) :
    (runMain true diff ci setup sub previews sel load rev w).writes = [] ∧
    (runMain true diff ci setup sub previews sel load rev w).published = none ∧
    (∀ rel, ask_gemini_for_relevant_files sel previews = Except.ok rel →
      diff ≠ "" → setup = true → previews ≠ [] →
      ∀ p ∈ rel, load_full_content load p ≠ "" →
        pyStrip (pyStrip (rev p (load_full_content load p))) ≠ "NO_UPDATE_NEEDED" →
        p ∈ (runMain true diff ci setup sub previews sel load rev w).wouldUpdate) := by
  refine ⟨?_, ?_, ?_⟩
  · rcases runMain_shape true diff ci setup sub previews sel load rev w with
      he | he | ⟨rel, hsel, hne, he⟩
    · rw [he]; rfl
    · rw [he]; rfl
    · rw [he]
      exact (reviseLoop_dry_inert load rev w rel).1
  · rcases runMain_shape true diff ci setup sub previews sel load rev w with
      he | he | ⟨rel, hsel, hne, he⟩
    · rw [he]; rfl
    · rw [he]; rfl
    · rw [he]
      show (if (reviseLoop true load rev w rel).modified = [] then none
        else if (true : Bool) then none else _) = none
      rw [if_pos (reviseLoop_dry_inert load rev w rel).2]
  · intro rel hsel hdiff hsetup hprev p hp hload hsent
    have hne : rel ≠ [] := by
      intro hnil
      subst hnil
      cases hp
    rw [runMain_eq true diff ci setup sub previews sel load rev w rel
      hdiff hsetup hprev hsel hne]
    exact reviseLoop_dry_report load rev w p hload hsent rel hp

/-- Witness for claim C5 at a concrete dry run: nothing is written or
published and the one candidate is reported. -/
theorem claim_C5_witness :
    (runMain true "d" none true (some "docs") [("a.md", "p")]
      (fun _ => Except.ok "a.md") (fun _ => Except.ok "body")
      (fun _ _ => "new") (fun _ => true)).writes = [] ∧
    (runMain true "d" none true (some "docs") [("a.md", "p")]
      (fun _ => Except.ok "a.md") (fun _ => Except.ok "body")
      (fun _ _ => "new") (fun _ => true)).published = none ∧
    "a.md" ∈ (runMain true "d" none true (some "docs") [("a.md", "p")]
      (fun _ => Except.ok "a.md") (fun _ => Except.ok "body")
      (fun _ _ => "new") (fun _ => true)).wouldUpdate :=
  ⟨(claim_C5_dry_run "d" none true (some "docs") [("a.md", "p")]
      (fun _ => Except.ok "a.md") (fun _ => Except.ok "body")
      (fun _ _ => "new") (fun _ => true)).1,
   (claim_C5_dry_run "d" none true (some "docs") [("a.md", "p")]
      (fun _ => Except.ok "a.md") (fun _ => Except.ok "body")
      (fun _ _ => "new") (fun _ => true)).2.1,
   (claim_C5_dry_run "d" none true (some "docs") [("a.md", "p")]
      (fun _ => Except.ok "a.md") (fun _ => Except.ok "body")
      (fun _ _ => "new") (fun _ => true)).2.2 ["a.md"] (by decide)
      (by decide) rfl (by decide) "a.md" (by decide) (by decide) (by decide)⟩

/-- Claim C6: a candidate whose revision response strips to exactly the
NO_UPDATE_NEEDED sentinel is never written on disk and never appears in
the modified-files list. -/
theorem claim_C6_sentinel (dry : Bool) (diff : String) (ci : Option CommitInfo)
    (setup : Bool) (sub : Option String) (previews : List (String × String))
    (sel : List (String × String) → Except Unit String)
    (load : String → Except Unit String)
    (rev : String → String → String) (w : String → Bool) (p : String)
    (h : pyStrip (rev p (load_full_content load p)) = "NO_UPDATE_NEEDED") :
    (∀ e ∈ (runMain dry diff ci setup sub previews sel load rev w).writes, e.1 ≠ p) ∧
    p ∉ (runMain dry diff ci setup sub previews sel load rev w).modified := by
  rcases runMain_shape dry diff ci setup sub previews sel load rev w with
    he | he | ⟨rel, hsel, hne, he⟩
  · rw [he]
    exact ⟨fun e he2 => absurd he2 (List.not_mem_nil e),
      fun hm => absurd hm (List.not_mem_nil p)⟩
  · rw [he]
    exact ⟨fun e he2 => absurd he2 (List.not_mem_nil e),
      fun hm => absurd hm (List.not_mem_nil p)⟩
  · rw [he]
    exact reviseLoop_sentinel_skip dry load rev w p h rel

/-- Witness for claim C6: a concrete run whose revision oracle answers
the sentinel with surrounding whitespace leaves the candidate out of the
modified list. -/
theorem claim_C6_witness :
    "a.md" ∉ (runMain false "d" none true (some "docs") [("a.md", "p")]
      (fun _ => Except.ok "a.md") (fun _ => Except.ok "body")
      (fun _ _ => "  NO_UPDATE_NEEDED  ") (fun _ => true)).modified :=
  (claim_C6_sentinel false "d" none true (some "docs") [("a.md", "p")]
    (fun _ => Except.ok "a.md") (fun _ => Except.ok "body")
    (fun _ _ => "  NO_UPDATE_NEEDED  ") (fun _ => true) "a.md" (by decide)).2

/-- Claim C9: a candidate whose full-content load raises or yields the
empty string is skipped entirely: its loaded content is the empty string
in both cases, no revision request is issued for it, it is never written,
and it never appears in the modified-files list. -/
theorem claim_C9_unreadable_or_empty (dry : Bool) (diff : String)
    (ci : Option CommitInfo) (setup : Bool) (sub : Option String)
    (previews : List (String × String))
    (sel : List (String × String) → Except Unit String)
    (load : String → Except Unit String)
    (rev : String → String → String) (w : String → Bool) (p : String)
    (h : load p = Except.error () ∨ load p = Except.ok "") :
    load_full_content load p = "" ∧
    p ∉ (runMain dry diff ci setup sub previews sel load rev w).revised ∧
    (∀ e ∈ (runMain dry diff ci setup sub previews sel load rev w).writes, e.1 ≠ p) ∧
    p ∉ (runMain dry diff ci setup sub previews sel load rev w).modified := by
  have hload : load_full_content load p = "" := by
    rcases h with h2 | h2 <;> simp [load_full_content, h2]
  refine ⟨hload, ?_⟩
  rcases runMain_shape dry diff ci setup sub previews sel load rev w with
    he | he | ⟨rel, hsel, hne, he⟩
  · rw [he]
    exact ⟨fun hm => absurd hm (List.not_mem_nil p),
      fun e he2 => absurd he2 (List.not_mem_nil e),
      fun hm => absurd hm (List.not_mem_nil p)⟩
  · rw [he]
    exact ⟨fun hm => absurd hm (List.not_mem_nil p),
      fun e he2 => absurd he2 (List.not_mem_nil e),
      fun hm => absurd hm (List.not_mem_nil p)⟩
  · rw [he]
    exact reviseLoop_empty_skip dry load rev w p hload rel

/-- Witness for claim C9: a zero-byte candidate is skipped by a concrete
run. -/
theorem claim_C9_witness :
    load_full_content (fun _ => Except.ok "") "a.md" = "" ∧
    "a.md" ∉ (runMain false "d" none true (some "docs") [("a.md", "p")]
      (fun _ => Except.ok "a.md") (fun _ => Except.ok "")
      (fun _ _ => "new") (fun _ => true)).revised :=
  ⟨(claim_C9_unreadable_or_empty false "d" none true (some "docs") [("a.md", "p")]
      (fun _ => Except.ok "a.md") (fun _ => Except.ok "")
      (fun _ _ => "new") (fun _ => true) "a.md" (Or.inr rfl)).1,
   (claim_C9_unreadable_or_empty false "d" none true (some "docs") [("a.md", "p")]
      (fun _ => Except.ok "a.md") (fun _ => Except.ok "")
      (fun _ _ => "new") (fun _ => true) "a.md" (Or.inr rfl)).2.1⟩

end SuggestDocs
